import Mathlib

/-!
Shallow embedding of the two-stage research pipeline implemented in the
repository's three variant files `maincode.py`, `newmain.py` and
`accuracy.py`.  Python strings are modelled as `List Char`; the external
search and generation collaborators are modelled as explicit outcome
values passed into each step (an exception raised by a collaborator is
the `exc` constructor).  Every definition is translated from the source
file named in its doc comment.
-/

/-- Python strings are modelled as lists of characters. -/
abbrev PyStr := List Char

/-- Coercion from a Lean string literal to the `PyStr` model. -/
def strLit (s : String) : PyStr := s.data

/-- Models Python's `str.isspace` on a single character: the ASCII
whitespace characters together with the Unicode whitespace code points
recognised by CPython. -/
def isPyWs (c : Char) : Bool :=
  c == ' ' || c == '\t' || c == '\n' || c == '\r' || c == '\x0b' || c == '\x0c' ||
  (0x1c ≤ c.val && c.val ≤ 0x1f) || c.val == 0x85 || c.val == 0xa0 ||
  c.val == 0x1680 || (0x2000 ≤ c.val && c.val ≤ 0x200a) ||
  c.val == 0x2028 || c.val == 0x2029 || c.val == 0x202f || c.val == 0x205f ||
  c.val == 0x3000

/-- Models Python's `str.isprintable` on a single character: a character is
printable unless it is a control character (Cc), a surrogate (Cs), a private
use character (Co), a format character (Cf), or a separator (Zs/Zl/Zp) other
than the plain space.  Unassigned code points (Cn), whose status in CPython
depends on the Unicode table version, are treated as printable; none of the
concrete inputs used below fall in that category. -/
def pyPrintable (c : Char) : Bool :=
  c == ' ' ||
  !(c.val < 0x20 || (0x7f ≤ c.val && c.val ≤ 0xa0) || isPyWs c ||
    c.val == 0xad || (0x600 ≤ c.val && c.val ≤ 0x605) || c.val == 0x61c ||
    c.val == 0x6dd || c.val == 0x70f || c.val == 0x8e2 || c.val == 0x180e ||
    (0x200b ≤ c.val && c.val ≤ 0x200f) || (0x202a ≤ c.val && c.val ≤ 0x202e) ||
    (0x2060 ≤ c.val && c.val ≤ 0x2064) || (0x2066 ≤ c.val && c.val ≤ 0x206f) ||
    c.val == 0xfeff || (0xfff9 ≤ c.val && c.val ≤ 0xfffb) ||
    (0xe000 ≤ c.val && c.val ≤ 0xf8ff) || 0xf0000 ≤ c.val ||
    (0xd800 ≤ c.val && c.val ≤ 0xdfff) || (0xfdd0 ≤ c.val && c.val ≤ 0xfdef) ||
    c.val % 0x10000 == 0xfffe || c.val % 0x10000 == 0xffff)

/-- Removes the maximal run of characters satisfying `p` from the right end
of a list. -/
def dropWhileRight (p : Char → Bool) (l : PyStr) : PyStr :=
  (l.reverse.dropWhile p).reverse

/-- Models Python's `str.strip()`: remove whitespace from both ends. -/
def pyStrip (s : PyStr) : PyStr :=
  dropWhileRight isPyWs (s.dropWhile isPyWs)

/-- Models Python's substring containment test `p in s`. -/
def isSubstr (p : PyStr) : PyStr → Bool
  | [] => p.isEmpty
  | c :: cs => p.isPrefixOf (c :: cs) || isSubstr p cs

/-- Models Python's `s.split('\n')`: split into the list of lines, with the
empty string as the single line of an empty input. -/
def splitNl : PyStr → List PyStr
  | [] => [[]]
  | c :: cs =>
    match splitNl cs with
    | [] => [[c]]
    | l :: ls => if c == '\n' then [] :: l :: ls else (c :: l) :: ls

/-- Models Python's `'\n'.join(lines)`. -/
def joinNl (lines : List PyStr) : PyStr :=
  List.intercalate ['\n'] lines

/-- Models the line cleanup in `maincode.py` line 80:
`'\n'.join(line for line in t.split('\n') if line.strip())`. -/
def dropBlankLines (t : PyStr) : PyStr :=
  joinNl ((splitNl t).filter (fun l => !(pyStrip l).isEmpty))

/-- Models `maincode.py` line 81: `t.replace("•", "-")`. -/
def replaceBullet (t : PyStr) : PyStr :=
  t.map (fun c => if c == '•' then '-' else c)

/-- The `ResearchState` dataclass shared by all three variant files:
`query`, `research_data`, `answer_draft`. -/
structure ResearchState where
  query : PyStr
  research_data : List PyStr
  answer_draft : PyStr
deriving DecidableEq

/-- One search result item: its optional `content` field (`res.get("content", ...)`
returns the default when the field is absent). -/
structure SearchResult where
  content : Option PyStr
deriving DecidableEq

/-- Outcome of the search collaborator call: either a response whose optional
`results` field holds a list of result items (`response.get("results", [])`
gives `[]` when the field is absent), or a raised exception. -/
inductive SearchOutcome where
  | ok (results : Option (List SearchResult))
  | exc
deriving DecidableEq

/-- Value returned by the generation collaborator: plain text, a mapping with
an optional `generated_text` field, or some other unrecognised shape. -/
inductive GenResponse where
  | str (s : PyStr)
  | dict (generated_text : Option PyStr)
  | other
deriving DecidableEq

/-- Outcome of the generation collaborator call: a response value or a raised
exception. -/
inductive GenOutcome where
  | ok (r : GenResponse)
  | exc
deriving DecidableEq

/-- Extraction of the content text from one result item, as done by all three
research agents: `res.get("content", "No content available.")`. -/
def extractContent (r : SearchResult) : PyStr :=
  r.content.getD (strLit "No content available.")

/-- The `research_agent` of `maincode.py` (lines 30-45): build the content
list, replace an empty or all-blank list by the placeholder, and on an
exception substitute the error sentinel; `answer_draft` is reset to empty. -/
def research_agent_main (st : ResearchState) (so : SearchOutcome) : ResearchState :=
  match so with
  | .exc => ⟨st.query, [strLit "Error fetching results"], []⟩
  | .ok results =>
    let research_data := (results.getD []).map extractContent
    let research_data :=
      if research_data.isEmpty || research_data.all (fun item => (pyStrip item).isEmpty) then
        [strLit "No relevant search results."]
      else research_data
    ⟨st.query, research_data, []⟩

/-- The `research_agent` of `newmain.py` (lines 27-42); its body is identical
to the one in `maincode.py`. -/
def research_agent_newmain (st : ResearchState) (so : SearchOutcome) : ResearchState :=
  match so with
  | .exc => ⟨st.query, [strLit "Error fetching results"], []⟩
  | .ok results =>
    let research_data := (results.getD []).map extractContent
    let research_data :=
      if research_data.isEmpty || research_data.all (fun item => (pyStrip item).isEmpty) then
        [strLit "No relevant search results."]
      else research_data
    ⟨st.query, research_data, []⟩

/-- The filter predicate of `accuracy.py` line 38:
`"No content" not in res and len(res) > 50`. -/
def accKeep (res : PyStr) : Bool :=
  !isSubstr (strLit "No content") res && decide (50 < res.length)

/-- The `research_agent` of `accuracy.py` (lines 29-48): filter out
low-quality results, replace an empty filtered list by the placeholder, and
on an exception substitute the error sentinel. -/
def research_agent_accuracy (st : ResearchState) (so : SearchOutcome) : ResearchState :=
  match so with
  | .exc => ⟨st.query, [strLit "Error fetching results"], []⟩
  | .ok results =>
    let research_data := (results.getD []).map extractContent
    let filtered_data := research_data.filter accKeep
    let filtered_data :=
      if filtered_data.isEmpty then [strLit "No relevant search results."]
      else filtered_data
    ⟨st.query, filtered_data, []⟩

/-- The `sanitize_response` of `maincode.py` (lines 50-52): keep only the
characters for which Python's `isprintable()` is true. -/
def sanitize_response (response_text : PyStr) : PyStr :=
  response_text.filter pyPrintable

/-- The corruption sentinel shared by all variants. -/
def corruptSentinel : PyStr :=
  strLit "Error: The AI response was corrupted. Please try again."

/-- The `answer_drafting_agent` of `maincode.py` (lines 54-86): a string
response is stripped and sanitized, any other shape becomes the
no-answer sentinel; an empty result or one containing U+FFFD becomes the
corruption sentinel; blank lines are removed and bullets replaced; an
exception becomes the fetch-error sentinel.  `query` and `research_data`
are carried forward. -/
def answer_drafting_agent_main (st : ResearchState) (go : GenOutcome) : ResearchState :=
  match go with
  | .exc => ⟨st.query, st.research_data, strLit "Error fetching response."⟩
  | .ok r =>
    let answer_text :=
      match r with
      | .str s => sanitize_response (pyStrip s)
      | _ => strLit "Error: No answer generated."
    let answer_text :=
      if answer_text.isEmpty || answer_text.any (fun c => c == '�') then
        corruptSentinel
      else answer_text
    let cleaned_answer := replaceBullet (dropBlankLines answer_text)
    ⟨st.query, st.research_data, cleaned_answer⟩

/-- The garbage-token patterns checked by `newmain.py` line 71 and
`accuracy.py` line 80. -/
def corruptPatterns : List PyStr :=
  [strLit "--c2-", strLit "( ( (", strLit "< ( ("]

/-- The `answer_drafting_agent` of `newmain.py` (lines 47-78): a string
response is stripped, a mapping response yields its stripped
`generated_text` field (empty when absent), any other shape becomes the
no-answer sentinel; an empty result or one containing a garbage-token
pattern becomes the corruption sentinel; an exception becomes the
fetch-error sentinel.  `query` and `research_data` are carried forward. -/
def answer_drafting_agent_newmain (st : ResearchState) (go : GenOutcome) : ResearchState :=
  match go with
  | .exc => ⟨st.query, st.research_data, strLit "Error fetching response."⟩
  | .ok r =>
    let answer_text :=
      match r with
      | .str s => pyStrip s
      | .dict g => pyStrip (g.getD [])
      | .other => strLit "Error: No answer generated."
    let answer_text :=
      if answer_text.isEmpty || corruptPatterns.any (fun p => isSubstr p answer_text) then
        corruptSentinel
      else answer_text
    ⟨st.query, st.research_data, answer_text⟩

/-- The `answer_drafting_agent` of `accuracy.py` (lines 54-88); its
normalization, corruption check and error handling are identical to the
ones in `newmain.py`. -/
def answer_drafting_agent_accuracy (st : ResearchState) (go : GenOutcome) : ResearchState :=
  match go with
  | .exc => ⟨st.query, st.research_data, strLit "Error fetching response."⟩
  | .ok r =>
    let answer_text :=
      match r with
      | .str s => pyStrip s
      | .dict g => pyStrip (g.getD [])
      | .other => strLit "Error: No answer generated."
    let answer_text :=
      if answer_text.isEmpty || corruptPatterns.any (fun p => isSubstr p answer_text) then
        corruptSentinel
      else answer_text
    ⟨st.query, st.research_data, answer_text⟩

/-- Shape of the value handed back by the workflow executor to the runner:
the state itself, a mapping holding exactly the state's fields (which
`ResearchState(**d)` reconstructs), or an unrecognised shape carrying its
type name. -/
inductive FinalValue where
  | state (s : ResearchState)
  | dict (s : ResearchState)
  | other (tyName : PyStr)
deriving DecidableEq

/-- The final-value unwrapping of `run_research_system` in `maincode.py`
(lines 108-114): a mapping is converted back to the state type; an empty
`answer_draft` is replaced by `"Error: No answer generated."` (Python's
`x or y`); an unrecognised shape yields a descriptive error mentioning
its type. -/
def unwrap_main : FinalValue → PyStr
  | .state s | .dict s =>
    if s.answer_draft.isEmpty then strLit "Error: No answer generated."
    else s.answer_draft
  | .other tyName =>
    strLit "Error: Unexpected final state structure. Received type: " ++ tyName

/-- The final-value unwrapping of `run_research_system` in `newmain.py`
(lines 100-106); identical to the one in `maincode.py`. -/
def unwrap_newmain : FinalValue → PyStr
  | .state s | .dict s =>
    if s.answer_draft.isEmpty then strLit "Error: No answer generated."
    else s.answer_draft
  | .other tyName =>
    strLit "Error: Unexpected final state structure. Received type: " ++ tyName

/-- The final-value unwrapping of `run_research_system` in `accuracy.py`
(lines 111-114): a mapping is converted back to the state type and
`answer_draft` is returned as is — there is no empty-string fallback; an
unrecognised shape yields `"Error: Unexpected state."`. -/
def unwrap_accuracy : FinalValue → PyStr
  | .state s | .dict s => s.answer_draft
  | .other _ => strLit "Error: Unexpected state."

/-- The compiled two-node workflow shared by all three files: research then
draft, in fixed sequence, starting from `{query, [], ""}`.  The collaborator
outcomes are explicit inputs; `asDict` selects whether the executor hands
the final state back as the state type or as a mapping of its fields. -/
def invokePipeline (research draft : ResearchState → ResearchState)
    (userQuery : PyStr) (asDict : Bool) : FinalValue :=
  let final := draft (research ⟨userQuery, [], []⟩)
  if asDict then .dict final else .state final

/-- The `run_research_system` of `maincode.py` (lines 99-114). -/
def run_research_system_main (userQuery : PyStr) (so : SearchOutcome)
    (go : GenOutcome) (asDict : Bool) : PyStr :=
  unwrap_main (invokePipeline (research_agent_main · so)
    (answer_drafting_agent_main · go) userQuery asDict)

/-- The `run_research_system` of `newmain.py` (lines 90-106). -/
def run_research_system_newmain (userQuery : PyStr) (so : SearchOutcome)
    (go : GenOutcome) (asDict : Bool) : PyStr :=
  unwrap_newmain (invokePipeline (research_agent_newmain · so)
    (answer_drafting_agent_newmain · go) userQuery asDict)

/-- The `run_research_system` of `accuracy.py` (lines 106-114). -/
def run_research_system_accuracy (userQuery : PyStr) (so : SearchOutcome)
    (go : GenOutcome) (asDict : Bool) : PyStr :=
  unwrap_accuracy (invokePipeline (research_agent_accuracy · so)
    (answer_drafting_agent_accuracy · go) userQuery asDict)

/-- The sanitization chain of `maincode.py`'s drafting step, in source
order: `strip`, remove non-printable characters, drop blank lines,
replace `•` with `-` (lines 72 and 80-81, excluding the corruption
substitution). -/
def sanitizeChain (s : PyStr) : PyStr :=
  replaceBullet (dropBlankLines (sanitize_response (pyStrip s)))

/-! ## Helper lemmas -/

/-- The corruption guard of `newmain.py`/`accuracy.py` never produces the
empty string: either it substitutes the (non-empty) sentinel, or it keeps a
text it has just checked to be non-empty. -/
lemma corrupt_guard_ne (t : PyStr) :
    (if t.isEmpty || corruptPatterns.any (fun p => isSubstr p t) then corruptSentinel
     else t) ≠ [] := by
  split
  · decide
  · rename_i h
    intro he
    apply h
    subst he
    rfl

/-- The drafting step of `newmain.py` always produces a non-empty
`answer_draft`. -/
lemma drafting_newmain_ad_ne (st : ResearchState) (go : GenOutcome) :
    (answer_drafting_agent_newmain st go).answer_draft ≠ [] := by
  cases go with
  | exc =>
    show strLit "Error fetching response." ≠ []
    decide
  | ok r => exact corrupt_guard_ne _

/-- The drafting step of `accuracy.py` always produces a non-empty
`answer_draft`. -/
lemma drafting_accuracy_ad_ne (st : ResearchState) (go : GenOutcome) :
    (answer_drafting_agent_accuracy st go).answer_draft ≠ [] := by
  cases go with
  | exc =>
    show strLit "Error fetching response." ≠ []
    decide
  | ok r => exact corrupt_guard_ne _

/-- The runner unwrapping of `maincode.py` never returns the empty string. -/
lemma unwrap_main_ne (v : FinalValue) : unwrap_main v ≠ [] := by
  cases v with
  | state s =>
    cases h : s.answer_draft with
    | nil => simp [unwrap_main, h]; decide
    | cons c l => simp [unwrap_main, h]
  | dict s =>
    cases h : s.answer_draft with
    | nil => simp [unwrap_main, h]; decide
    | cons c l => simp [unwrap_main, h]
  | other t => simp [unwrap_main, strLit]

/-- The runner unwrapping of `newmain.py` never returns the empty string. -/
lemma unwrap_newmain_ne (v : FinalValue) : unwrap_newmain v ≠ [] := by
  cases v with
  | state s =>
    cases h : s.answer_draft with
    | nil => simp [unwrap_newmain, h]; decide
    | cons c l => simp [unwrap_newmain, h]
  | dict s =>
    cases h : s.answer_draft with
    | nil => simp [unwrap_newmain, h]; decide
    | cons c l => simp [unwrap_newmain, h]
  | other t => simp [unwrap_newmain, strLit]

/-! ## Claim C1 -/

/-- C1: in every variant, `run_research_system(query)` returns a non-empty
text value, whatever the search and generation collaborators do and however
the executor hands the final state back. -/
theorem C1_run_never_empty (userQuery : PyStr) (so : SearchOutcome)
    (go : GenOutcome) (asDict : Bool) :
    run_research_system_main userQuery so go asDict ≠ [] ∧
    run_research_system_newmain userQuery so go asDict ≠ [] ∧
    run_research_system_accuracy userQuery so go asDict ≠ [] := by
  refine ⟨unwrap_main_ne _, unwrap_newmain_ne _, ?_⟩
  show unwrap_accuracy (invokePipeline _ _ _ _) ≠ []
  unfold invokePipeline
  cases asDict with
  | true => exact drafting_accuracy_ad_ne _ go
  | false => exact drafting_accuracy_ad_ne _ go

/-! ## Claim C3 -/

/-- C3: in every variant, if the search collaborator raises, the research
step returns the state with `research_data = ["Error fetching results"]`,
the query carried forward, and an empty `answer_draft`; the drafting step
still runs on that sentinel data, so the state it produces carries the
sentinel list forward. -/
theorem C3_search_exception_contained (st : ResearchState) (userQuery : PyStr)
    (go : GenOutcome) :
    research_agent_main st .exc =
      ⟨st.query, [strLit "Error fetching results"], []⟩ ∧
    research_agent_newmain st .exc =
      ⟨st.query, [strLit "Error fetching results"], []⟩ ∧
    research_agent_accuracy st .exc =
      ⟨st.query, [strLit "Error fetching results"], []⟩ ∧
    (answer_drafting_agent_main
        (research_agent_main ⟨userQuery, [], []⟩ .exc) go).research_data =
      [strLit "Error fetching results"] ∧
    (answer_drafting_agent_newmain
        (research_agent_newmain ⟨userQuery, [], []⟩ .exc) go).research_data =
      [strLit "Error fetching results"] ∧
    (answer_drafting_agent_accuracy
        (research_agent_accuracy ⟨userQuery, [], []⟩ .exc) go).research_data =
      [strLit "Error fetching results"] := by
  refine ⟨rfl, rfl, rfl, ?_, ?_, ?_⟩ <;> cases go <;> rfl

/-! ## Claim C4 -/

/-- C4: in every variant, if the generation collaborator raises, the
drafting step returns the state with `answer_draft = "Error fetching
response."` and query and research data carried forward, and the pipeline's
final answer equals that sentinel. -/
theorem C4_generation_exception_contained (st : ResearchState)
    (userQuery : PyStr) (so : SearchOutcome) (asDict : Bool) :
    answer_drafting_agent_main st .exc =
      ⟨st.query, st.research_data, strLit "Error fetching response."⟩ ∧
    answer_drafting_agent_newmain st .exc =
      ⟨st.query, st.research_data, strLit "Error fetching response."⟩ ∧
    answer_drafting_agent_accuracy st .exc =
      ⟨st.query, st.research_data, strLit "Error fetching response."⟩ ∧
    run_research_system_main userQuery so .exc asDict =
      strLit "Error fetching response." ∧
    run_research_system_newmain userQuery so .exc asDict =
      strLit "Error fetching response." ∧
    run_research_system_accuracy userQuery so .exc asDict =
      strLit "Error fetching response." := by
  refine ⟨rfl, rfl, rfl, ?_, ?_, ?_⟩ <;> cases so <;> cases asDict <;> rfl

/-! ## Claim C6 -/

/-- C6: in every variant, each step only writes the field it owns — the
research step preserves `query` and resets `answer_draft` to empty, the
drafting step preserves `query` and `research_data` — and the query of the
pipeline's final state is the query the run started with. -/
theorem C6_frame_conditions (st : ResearchState) (so : SearchOutcome)
    (go : GenOutcome) (userQuery : PyStr) :
    (research_agent_main st so).query = st.query ∧
    (research_agent_main st so).answer_draft = [] ∧
    (research_agent_newmain st so).query = st.query ∧
    (research_agent_newmain st so).answer_draft = [] ∧
    (research_agent_accuracy st so).query = st.query ∧
    (research_agent_accuracy st so).answer_draft = [] ∧
    (answer_drafting_agent_main st go).query = st.query ∧
    (answer_drafting_agent_main st go).research_data = st.research_data ∧
    (answer_drafting_agent_newmain st go).query = st.query ∧
    (answer_drafting_agent_newmain st go).research_data = st.research_data ∧
    (answer_drafting_agent_accuracy st go).query = st.query ∧
    (answer_drafting_agent_accuracy st go).research_data = st.research_data ∧
    (answer_drafting_agent_main
      (research_agent_main ⟨userQuery, [], []⟩ so) go).query = userQuery ∧
    (answer_drafting_agent_newmain
      (research_agent_newmain ⟨userQuery, [], []⟩ so) go).query = userQuery ∧
    (answer_drafting_agent_accuracy
      (research_agent_accuracy ⟨userQuery, [], []⟩ so) go).query = userQuery := by
  refine ⟨?_, ?_, ?_, ?_, ?_, ?_, ?_, ?_, ?_, ?_, ?_, ?_, ?_, ?_, ?_⟩ <;>
    cases so <;> cases go <;> rfl

/-! ## Claim C5 -/

/-- The placeholder guard of `maincode.py`/`newmain.py` never produces an
empty research list. -/
lemma placeholder_guard_ne (rd : List PyStr) :
    (if rd.isEmpty || rd.all (fun item => (pyStrip item).isEmpty) then
       [strLit "No relevant search results."]
     else rd) ≠ [] := by
  split
  · simp
  · rename_i h
    intro he
    apply h
    subst he
    rfl

/-- The placeholder guard of `accuracy.py` never produces an empty research
list. -/
lemma acc_guard_ne (fd : List PyStr) :
    (if fd.isEmpty then [strLit "No relevant search results."] else fd) ≠ [] := by
  split
  · simp
  · rename_i h
    intro he
    apply h
    subst he
    rfl

/-- C5: in every variant, the research step always produces a non-empty
`research_data` list: the error sentinel on an exception, the placeholder
when the `results` field is missing, when every extracted content is blank
(`maincode.py`/`newmain.py`) or when filtering leaves nothing
(`accuracy.py`); otherwise the kept list itself, which is non-empty. -/
theorem C5_research_data_never_empty :
    (∀ st so, (research_agent_main st so).research_data ≠ []) ∧
    (∀ st so, (research_agent_newmain st so).research_data ≠ []) ∧
    (∀ st so, (research_agent_accuracy st so).research_data ≠ []) ∧
    (∀ st, (research_agent_main st .exc).research_data =
      [strLit "Error fetching results"]) ∧
    (∀ st, (research_agent_newmain st .exc).research_data =
      [strLit "Error fetching results"]) ∧
    (∀ st, (research_agent_accuracy st .exc).research_data =
      [strLit "Error fetching results"]) ∧
    (∀ st, (research_agent_main st (.ok none)).research_data =
      [strLit "No relevant search results."]) ∧
    (∀ st, (research_agent_newmain st (.ok none)).research_data =
      [strLit "No relevant search results."]) ∧
    (∀ st, (research_agent_accuracy st (.ok none)).research_data =
      [strLit "No relevant search results."]) ∧
    (∀ st results,
      ((results.map extractContent).all fun item => (pyStrip item).isEmpty) = true →
      (research_agent_main st (.ok (some results))).research_data =
        [strLit "No relevant search results."]) ∧
    (∀ st results,
      ((results.map extractContent).all fun item => (pyStrip item).isEmpty) = true →
      (research_agent_newmain st (.ok (some results))).research_data =
        [strLit "No relevant search results."]) ∧
    (∀ st results,
      (results.map extractContent).filter accKeep = [] →
      (research_agent_accuracy st (.ok (some results))).research_data =
        [strLit "No relevant search results."]) := by
  refine ⟨?_, ?_, ?_, fun _ => rfl, fun _ => rfl, fun _ => rfl,
    fun _ => rfl, fun _ => rfl, fun _ => rfl, ?_, ?_, ?_⟩
  · intro st so
    cases so with
    | exc => simp [research_agent_main]
    | ok results => exact placeholder_guard_ne _
  · intro st so
    cases so with
    | exc => simp [research_agent_newmain]
    | ok results => exact placeholder_guard_ne _
  · intro st so
    cases so with
    | exc => simp [research_agent_accuracy]
    | ok results => exact acc_guard_ne _
  · intro st results h
    simp [research_agent_main, h]
  · intro st results h
    simp [research_agent_newmain, h]
  · intro st results h
    simp [research_agent_accuracy, h]

/-- Witness for C5: a single all-blank result triggers the placeholder in
`maincode.py`, and a single too-short result triggers it in `accuracy.py`. -/
theorem C5_research_data_never_empty_witness :
    (research_agent_main ⟨strLit "q", [], []⟩
        (.ok (some [⟨some (strLit " ")⟩]))).research_data =
      [strLit "No relevant search results."] ∧
    (research_agent_accuracy ⟨strLit "q", [], []⟩
        (.ok (some [⟨some (strLit "short")⟩]))).research_data =
      [strLit "No relevant search results."] :=
  ⟨C5_research_data_never_empty.2.2.2.2.2.2.2.2.2.1 _ _ (by decide),
   C5_research_data_never_empty.2.2.2.2.2.2.2.2.2.2.2 _ _ (by decide)⟩

/-! ## Substring lemmas for the corruption patterns -/

/-- Correspondence between the executable substring test and its
existential characterization. -/
lemma isSubstr_iff (p s : PyStr) :
    isSubstr p s = true ↔ ∃ a b, s = a ++ p ++ b := by
  induction s with
  | nil =>
    simp only [isSubstr]
    constructor
    · intro h
      have hp : p = [] := by simpa using h
      exact ⟨[], [], by simp [hp]⟩
    · rintro ⟨a, b, h⟩
      have h' : a ++ p ++ b = [] := h.symm
      simp only [List.append_eq_nil] at h'
      simp [h'.1.2]
  | cons c cs ih =>
    simp only [isSubstr, Bool.or_eq_true, ih]
    constructor
    · rintro (h | ⟨a, b, h⟩)
      · rw [List.isPrefixOf_iff_prefix] at h
        obtain ⟨t, ht⟩ := h
        exact ⟨[], t, by simp [← ht]⟩
      · exact ⟨c :: a, b, by simp [h]⟩
    · rintro ⟨a, b, h⟩
      cases a with
      | nil =>
        left
        rw [List.isPrefixOf_iff_prefix]
        exact ⟨b, by simpa using h.symm⟩
      | cons x a' =>
        right
        simp only [List.cons_append, List.cons.injEq] at h
        exact ⟨a', b, h.2⟩

/-- A substring whose first character is not whitespace survives the
left-strip. -/
lemma sub_dropWhileP (d : Char) (p' b : PyStr) (hd : isPyWs d = false)
    (a : PyStr) :
    ∃ a2 b2, (a ++ (d :: p') ++ b).dropWhile isPyWs = a2 ++ (d :: p') ++ b2 := by
  induction a with
  | nil =>
    refine ⟨[], b, ?_⟩
    simp [List.dropWhile_cons, hd]
  | cons x a' ih =>
    by_cases hx : isPyWs x = true
    · obtain ⟨a2, b2, h⟩ := ih
      refine ⟨a2, b2, ?_⟩
      simpa [List.dropWhile_cons, hx] using h
    · refine ⟨x :: a', b, ?_⟩
      simp [List.dropWhile_cons, hx]

/-- A substring whose first and last characters are not whitespace survives
Python's `strip`. -/
lemma sub_pyStrip (d e : Char) (m s : PyStr) (hd : isPyWs d = false)
    (he : isPyWs e = false)
    (h : isSubstr (d :: (m ++ [e])) s = true) :
    isSubstr (d :: (m ++ [e])) (pyStrip s) = true := by
  rw [isSubstr_iff] at h ⊢
  obtain ⟨a, b, rfl⟩ := h
  obtain ⟨a2, b2, h2⟩ := sub_dropWhileP d (m ++ [e]) b hd a
  rw [pyStrip, h2, dropWhileRight]
  have hrev : (a2 ++ (d :: (m ++ [e])) ++ b2).reverse
      = b2.reverse ++ (e :: (m.reverse ++ [d])) ++ a2.reverse := by
    simp [List.reverse_append]
  rw [hrev]
  obtain ⟨a3, b3, h3⟩ := sub_dropWhileP e (m.reverse ++ [d]) a2.reverse he b2.reverse
  rw [h3]
  refine ⟨b3.reverse, a3.reverse, ?_⟩
  simp [List.reverse_append]

/-- A non-whitespace character of a string survives the left-drop of
whitespace. -/
lemma mem_dropWhile_of_not_ws {c : Char} {l : PyStr} (hc : isPyWs c = false)
    (h : c ∈ l) : c ∈ l.dropWhile isPyWs := by
  have hsplit : l.takeWhile isPyWs ++ l.dropWhile isPyWs = l :=
    List.takeWhile_append_dropWhile isPyWs l
  rw [← hsplit] at h
  rcases List.mem_append.1 h with h' | h'
  · have := List.mem_takeWhile_imp h'
    rw [this] at hc
    cases hc
  · exact h'

/-- A non-whitespace character of a string survives Python's `strip`. -/
lemma mem_pyStrip_of_not_ws {c : Char} {s : PyStr} (hc : isPyWs c = false)
    (h : c ∈ s) : c ∈ pyStrip s := by
  rw [pyStrip, dropWhileRight]
  rw [List.mem_reverse]
  apply mem_dropWhile_of_not_ws hc
  rw [List.mem_reverse]
  exact mem_dropWhile_of_not_ws hc h

/-! ## Claim C2 -/

/-- When the corruption check of `newmain.py` fires, the drafted answer is
the corruption sentinel. -/
lemma drafting_newmain_str_corrupt (st : ResearchState) (s : PyStr)
    (h : ((pyStrip s).isEmpty ||
      corruptPatterns.any fun p => isSubstr p (pyStrip s)) = true) :
    (answer_drafting_agent_newmain st (.ok (.str s))).answer_draft =
      corruptSentinel := by
  show (if (pyStrip s).isEmpty ||
          corruptPatterns.any (fun p => isSubstr p (pyStrip s)) then
        corruptSentinel else pyStrip s) = corruptSentinel
  rw [if_pos h]

/-- When the corruption check of `accuracy.py` fires, the drafted answer is
the corruption sentinel. -/
lemma drafting_accuracy_str_corrupt (st : ResearchState) (s : PyStr)
    (h : ((pyStrip s).isEmpty ||
      corruptPatterns.any fun p => isSubstr p (pyStrip s)) = true) :
    (answer_drafting_agent_accuracy st (.ok (.str s))).answer_draft =
      corruptSentinel := by
  show (if (pyStrip s).isEmpty ||
          corruptPatterns.any (fun p => isSubstr p (pyStrip s)) then
        corruptSentinel else pyStrip s) = corruptSentinel
  rw [if_pos h]

/-- When the corruption check of `maincode.py` fires, the drafted answer is
the corruption sentinel (the line cleanup leaves the sentinel unchanged). -/
lemma drafting_main_str_corrupt (st : ResearchState) (s : PyStr)
    (h : ((sanitize_response (pyStrip s)).isEmpty ||
      (sanitize_response (pyStrip s)).any fun c => c == '�') = true) :
    (answer_drafting_agent_main st (.ok (.str s))).answer_draft =
      corruptSentinel := by
  show replaceBullet (dropBlankLines
      (if (sanitize_response (pyStrip s)).isEmpty ||
          (sanitize_response (pyStrip s)).any (fun c => c == '�') then
        corruptSentinel else sanitize_response (pyStrip s))) = corruptSentinel
  rw [if_pos h]
  decide

/-- C2 counterexample: in the `maincode.py` variant a generation output
containing `"--c2-"` is NOT replaced by the corruption sentinel — that
variant only checks for emptiness and U+FFFD — so the claim's "in every
variant" fails. -/
theorem C2_counterexample :
    (answer_drafting_agent_main ⟨strLit "q", [strLit "data"], []⟩
        (.ok (.str (strLit "--c2-")))).answer_draft ≠ corruptSentinel := by
  decide

/-- C2 amended: the trigger set is per-variant.  In `newmain.py` and
`accuracy.py`, a string output containing one of `"--c2-"`, `"( ( ("`,
`"< ( ("`, or empty after stripping, is replaced by the corruption sentinel
verbatim; in `maincode.py` the triggers are instead an output containing a
Unicode replacement character or empty after strip-and-sanitize. -/
theorem C2_corruption_sentinel_per_variant :
    (∀ st s p, p ∈ corruptPatterns → isSubstr p s = true →
      (answer_drafting_agent_newmain st (.ok (.str s))).answer_draft =
        corruptSentinel) ∧
    (∀ st s p, p ∈ corruptPatterns → isSubstr p s = true →
      (answer_drafting_agent_accuracy st (.ok (.str s))).answer_draft =
        corruptSentinel) ∧
    (∀ st s, pyStrip s = [] →
      (answer_drafting_agent_newmain st (.ok (.str s))).answer_draft =
        corruptSentinel) ∧
    (∀ st s, pyStrip s = [] →
      (answer_drafting_agent_accuracy st (.ok (.str s))).answer_draft =
        corruptSentinel) ∧
    (∀ st s, '�' ∈ s →
      (answer_drafting_agent_main st (.ok (.str s))).answer_draft =
        corruptSentinel) ∧
    (∀ st s, sanitize_response (pyStrip s) = [] →
      (answer_drafting_agent_main st (.ok (.str s))).answer_draft =
        corruptSentinel) := by
  have hpat : ∀ p, p ∈ corruptPatterns → ∀ s, isSubstr p s = true →
      isSubstr p (pyStrip s) = true := by
    intro p hp s hs
    have e1 : strLit "--c2-" = '-' :: (strLit "-c2" ++ ['-']) := by decide
    have e2 : strLit "( ( (" = '(' :: (strLit " ( " ++ ['(']) := by decide
    have e3 : strLit "< ( (" = '<' :: (strLit " ( " ++ ['(']) := by decide
    simp only [corruptPatterns, List.mem_cons, List.not_mem_nil, or_false] at hp
    rcases hp with rfl | rfl | rfl
    · rw [e1] at hs ⊢; exact sub_pyStrip _ _ _ _ (by decide) (by decide) hs
    · rw [e2] at hs ⊢; exact sub_pyStrip _ _ _ _ (by decide) (by decide) hs
    · rw [e3] at hs ⊢; exact sub_pyStrip _ _ _ _ (by decide) (by decide) hs
  refine ⟨?_, ?_, ?_, ?_, ?_, ?_⟩
  · intro st s p hp hs
    apply drafting_newmain_str_corrupt
    have : corruptPatterns.any (fun p => isSubstr p (pyStrip s)) = true :=
      List.any_eq_true.2 ⟨p, hp, hpat p hp s hs⟩
    simp [this]
  · intro st s p hp hs
    apply drafting_accuracy_str_corrupt
    have : corruptPatterns.any (fun p => isSubstr p (pyStrip s)) = true :=
      List.any_eq_true.2 ⟨p, hp, hpat p hp s hs⟩
    simp [this]
  · intro st s hs
    apply drafting_newmain_str_corrupt
    simp [hs]
  · intro st s hs
    apply drafting_accuracy_str_corrupt
    simp [hs]
  · intro st s hs
    apply drafting_main_str_corrupt
    have h1 : '�' ∈ pyStrip s := mem_pyStrip_of_not_ws (by decide) hs
    have h2 : '�' ∈ sanitize_response (pyStrip s) :=
      List.mem_filter.2 ⟨h1, by decide⟩
    have : (sanitize_response (pyStrip s)).any (fun c => c == '�') = true :=
      List.any_eq_true.2 ⟨'�', h2, by decide⟩
    simp [this]
  · intro st s hs
    apply drafting_main_str_corrupt
    simp [hs]

/-- Witness for the amended C2: a `newmain.py` output embedding `"--c2-"`
and a `maincode.py` output containing U+FFFD both collapse to the sentinel. -/
theorem C2_corruption_sentinel_per_variant_witness :
    (answer_drafting_agent_newmain ⟨strLit "q", [], []⟩
        (.ok (.str (strLit " x --c2- y ")))).answer_draft = corruptSentinel ∧
    (answer_drafting_agent_main ⟨strLit "q", [], []⟩
        (.ok (.str (strLit "bad � text")))).answer_draft = corruptSentinel :=
  ⟨C2_corruption_sentinel_per_variant.1 _ _ (strLit "--c2-") (by decide)
      (by decide),
   C2_corruption_sentinel_per_variant.2.2.2.2.1 _ _ (by decide)⟩

/-! ## Claim C7 -/

/-- A second left-drop of whitespace removes nothing more. -/
lemma dropWhile_idem (p : Char → Bool) (l : PyStr) :
    (l.dropWhile p).dropWhile p = l.dropWhile p := by
  induction l with
  | nil => rfl
  | cons c cs ih =>
    rw [List.dropWhile_cons]
    split
    · exact ih
    · rename_i h
      rw [List.dropWhile_cons, if_neg h]

/-- A second right-drop of whitespace removes nothing more. -/
lemma dropWhileRight_idem (p : Char → Bool) (l : PyStr) :
    dropWhileRight p (dropWhileRight p l) = dropWhileRight p l := by
  unfold dropWhileRight
  rw [List.reverse_reverse, dropWhile_idem]

/-- If a string has no left whitespace run, neither does its right-stripped
version. -/
lemma dropWhile_dropWhileRight (p : Char → Bool) (y : PyStr)
    (h : y.dropWhile p = y) :
    (dropWhileRight p y).dropWhile p = dropWhileRight p y := by
  have hsplit : dropWhileRight p y ++ (y.reverse.takeWhile p).reverse = y := by
    unfold dropWhileRight
    rw [← List.reverse_append, List.takeWhile_append_dropWhile, List.reverse_reverse]
  cases hB : dropWhileRight p y with
  | nil => rfl
  | cons c z =>
    by_cases hc : p c = true
    · exfalso
      set t := (y.reverse.takeWhile p).reverse with ht
      have hy : y = c :: (z ++ t) := by
        conv_lhs => rw [← hsplit, hB]
        simp
      rw [hy, List.dropWhile_cons, if_pos hc] at h
      have hlen := congrArg List.length h
      have hle := (List.dropWhile_sublist (p := p) (l := z ++ t)).length_le
      simp only [List.length_cons] at hlen
      omega
    · rw [List.dropWhile_cons, if_neg hc]

/-- Python's `strip` is idempotent. -/
lemma pyStrip_idem (s : PyStr) : pyStrip (pyStrip s) = pyStrip s := by
  unfold pyStrip
  rw [dropWhile_dropWhileRight _ _ (dropWhile_idem _ _), dropWhileRight_idem]

/-- Printable characters are never the newline character. -/
lemma no_nl_of_allPrintable {t : PyStr} (h : ∀ c ∈ t, pyPrintable c = true) :
    '\n' ∉ t :=
  fun hx => absurd (h _ hx) (by decide)

/-- Splitting a newline-free string on newlines yields that single line. -/
lemma splitNl_no_nl (t : PyStr) (h : '\n' ∉ t) : splitNl t = [t] := by
  induction t with
  | nil => rfl
  | cons c cs ih =>
    have hc : (c == '\n') = false := by
      simp only [beq_eq_false_iff_ne, ne_eq]
      intro hx
      exact h (hx ▸ List.mem_cons_self c cs)
    have hcs : '\n' ∉ cs := fun hx => h (List.mem_cons_of_mem c hx)
    simp only [splitNl, ih hcs, hc, Bool.false_eq_true, if_false]

/-- Joining no lines yields the empty string. -/
lemma joinNl_nil : joinNl [] = [] := rfl

/-- Joining a single line yields that line. -/
lemma joinNl_single (t : PyStr) : joinNl [t] = t := by
  simp [joinNl, List.intercalate]

/-- On a newline-free text, the blank-line removal of `maincode.py` keeps
the text if it has non-blank content and otherwise yields the empty
string. -/
lemma dropBlankLines_no_nl (t : PyStr) (h : '\n' ∉ t) :
    dropBlankLines t = if (pyStrip t).isEmpty then [] else t := by
  rw [dropBlankLines, splitNl_no_nl t h]
  by_cases hb : (pyStrip t).isEmpty = true
  · simp only [List.filter_cons, hb, Bool.not_true, List.filter_nil, if_pos hb]
    rfl
  · simp only [List.filter, hb, Bool.not_false, if_neg hb]
    exact joinNl_single t

/-- Sanitization keeps an all-printable text unchanged. -/
lemma sanitize_eq_self {t : PyStr} (h : ∀ c ∈ t, pyPrintable c = true) :
    sanitize_response t = t :=
  List.filter_eq_self.2 h

/-- Every character of the stripped string is a character of the string. -/
lemma mem_of_mem_pyStrip {c : Char} {s : PyStr} (h : c ∈ pyStrip s) : c ∈ s := by
  rw [pyStrip, dropWhileRight, List.mem_reverse] at h
  have h1 : c ∈ (s.dropWhile isPyWs).reverse :=
    (List.dropWhile_sublist _).subset h
  rw [List.mem_reverse] at h1
  exact (List.dropWhile_sublist _).subset h1

/-- Stripping preserves printability of all characters. -/
lemma allPrintable_pyStrip {s : PyStr} (h : ∀ c ∈ s, pyPrintable c = true) :
    ∀ c ∈ pyStrip s, pyPrintable c = true :=
  fun c hc => h c (mem_of_mem_pyStrip hc)

/-- The bullet replacement does not change whether a character is
whitespace. -/
lemma ws_bullet (c : Char) :
    isPyWs (if c == '•' then '-' else c) = isPyWs c := by
  by_cases h : (c == '•') = true
  · rw [if_pos h, beq_iff_eq.1 h]
    decide
  · rw [if_neg h]

/-- Python's `strip` commutes with the bullet replacement. -/
lemma pyStrip_replaceBullet (t : PyStr) :
    pyStrip (replaceBullet t) = replaceBullet (pyStrip t) := by
  have hws : (isPyWs ∘ fun c => if c == '•' then '-' else c) = isPyWs :=
    funext ws_bullet
  unfold pyStrip dropWhileRight replaceBullet
  rw [List.dropWhile_map, hws, ← List.map_reverse, List.dropWhile_map, hws,
    ← List.map_reverse]

/-- The bullet replacement is idempotent. -/
lemma replaceBullet_idem (t : PyStr) :
    replaceBullet (replaceBullet t) = replaceBullet t := by
  unfold replaceBullet
  rw [List.map_map]
  congr 1
  funext c
  by_cases h : (c == '•') = true
  · rw [beq_iff_eq.1 h]
    decide
  · simp only [Function.comp_apply, if_neg h]

/-- The bullet replacement preserves printability of all characters. -/
lemma allPrintable_replaceBullet {t : PyStr}
    (h : ∀ c ∈ t, pyPrintable c = true) :
    ∀ c ∈ replaceBullet t, pyPrintable c = true := by
  intro c hc
  rw [replaceBullet, List.mem_map] at hc
  obtain ⟨d, hd, rfl⟩ := hc
  by_cases hb : (d == '•') = true
  · rw [if_pos hb]
    decide
  · rw [if_neg hb]
    exact h d hd

/-- On all-printable input the whole sanitization chain collapses to
strip-then-replace-bullets. -/
lemma sanitizeChain_of_allPrintable {s : PyStr}
    (h : ∀ c ∈ s, pyPrintable c = true) :
    sanitizeChain s = replaceBullet (pyStrip s) := by
  unfold sanitizeChain
  rw [sanitize_eq_self (allPrintable_pyStrip h),
    dropBlankLines_no_nl _ (no_nl_of_allPrintable (allPrintable_pyStrip h)),
    pyStrip_idem]
  by_cases hb : (pyStrip s).isEmpty = true
  · have he : pyStrip s = [] := by simpa using hb
    rw [if_pos hb, he]
  · rw [if_neg hb]

/-- C7 counterexample: the sanitization chain is not idempotent.  On
`"a \x01"` the initial strip sees the non-whitespace control character and
keeps the inner space, sanitization then deletes the control character and
exposes a trailing space, so one application yields `"a "` while a second
application strips further to `"a"`. -/
theorem C7_counterexample :
    sanitizeChain (sanitizeChain (strLit "a \x01")) ≠
      sanitizeChain (strLit "a \x01") := by
  decide

/-- C7 amended: the sanitization chain is idempotent on every text whose
characters are all printable; in general, removing non-printable characters
can expose new leading or trailing whitespace that only the second
application strips. -/
theorem C7_sanitize_idempotent_on_printable (s : PyStr)
    (h : ∀ c ∈ s, pyPrintable c = true) :
    sanitizeChain (sanitizeChain s) = sanitizeChain s := by
  rw [sanitizeChain_of_allPrintable h,
    sanitizeChain_of_allPrintable
      (allPrintable_replaceBullet (allPrintable_pyStrip h)),
    pyStrip_replaceBullet, pyStrip_idem, replaceBullet_idem]

/-- Witness for the amended C7 at a concrete printable text with bullets
and surrounding whitespace. -/
theorem C7_sanitize_idempotent_on_printable_witness :
    sanitizeChain (sanitizeChain (strLit "  • hello world  ")) =
      sanitizeChain (strLit "  • hello world  ") :=
  C7_sanitize_idempotent_on_printable _ (by decide)

/-! ## Claim C8 -/

/-- C8 counterexample: the `accuracy.py` runner has no empty-answer
fallback — unwrapping a final state whose `answer_draft` is empty returns
the empty string, not `"Error: No answer generated."`. -/
theorem C8_counterexample :
    unwrap_accuracy (.state ⟨strLit "q", [strLit "d"], []⟩) = [] ∧
    unwrap_accuracy (.state ⟨strLit "q", [strLit "d"], []⟩) ≠
      strLit "Error: No answer generated." := by
  constructor
  · rfl
  · decide

/-- C8 amended: the `maincode.py` and `newmain.py` runners return the final
state's `answer_draft`, with the `"Error: No answer generated."` fallback
for an empty draft and a descriptive type-mentioning error for an
unrecognised shape; the `accuracy.py` runner returns `answer_draft`
unchanged — even when empty — and uses `"Error: Unexpected state."` for an
unrecognised shape. -/
theorem C8_runner_unwrap_per_variant :
    (∀ s : ResearchState, s.answer_draft ≠ [] →
      unwrap_main (.state s) = s.answer_draft ∧
      unwrap_main (.dict s) = s.answer_draft ∧
      unwrap_newmain (.state s) = s.answer_draft ∧
      unwrap_newmain (.dict s) = s.answer_draft) ∧
    (∀ s : ResearchState, s.answer_draft = [] →
      unwrap_main (.state s) = strLit "Error: No answer generated." ∧
      unwrap_main (.dict s) = strLit "Error: No answer generated." ∧
      unwrap_newmain (.state s) = strLit "Error: No answer generated." ∧
      unwrap_newmain (.dict s) = strLit "Error: No answer generated.") ∧
    (∀ tyName,
      unwrap_main (.other tyName) =
        strLit "Error: Unexpected final state structure. Received type: " ++
          tyName ∧
      unwrap_newmain (.other tyName) =
        strLit "Error: Unexpected final state structure. Received type: " ++
          tyName) ∧
    (∀ s : ResearchState,
      unwrap_accuracy (.state s) = s.answer_draft ∧
      unwrap_accuracy (.dict s) = s.answer_draft) ∧
    (∀ tyName, unwrap_accuracy (.other tyName) =
      strLit "Error: Unexpected state.") := by
  refine ⟨?_, ?_, fun _ => ⟨rfl, rfl⟩, fun _ => ⟨rfl, rfl⟩, fun _ => rfl⟩
  · intro s h
    cases had : s.answer_draft with
    | nil => exact absurd had h
    | cons c l =>
      refine ⟨?_, ?_, ?_, ?_⟩ <;> simp [unwrap_main, unwrap_newmain, had]
  · intro s h
    refine ⟨?_, ?_, ?_, ?_⟩ <;> simp [unwrap_main, unwrap_newmain, h]

/-- Witness for the amended C8: a non-empty draft passes through the
`maincode.py` unwrap, an empty one triggers its fallback, and the
`accuracy.py` unwrap hands an empty draft back unchanged. -/
theorem C8_runner_unwrap_per_variant_witness :
    unwrap_main (.state ⟨strLit "q", [], strLit "an answer"⟩) =
      strLit "an answer" ∧
    unwrap_main (.state ⟨strLit "q", [], []⟩) =
      strLit "Error: No answer generated." ∧
    unwrap_accuracy (.state ⟨strLit "q", [], []⟩) = [] :=
  ⟨(C8_runner_unwrap_per_variant.1 ⟨strLit "q", [], strLit "an answer"⟩
      (by decide)).1,
   (C8_runner_unwrap_per_variant.2.1 ⟨strLit "q", [], []⟩ rfl).1,
   (C8_runner_unwrap_per_variant.2.2.2.1 ⟨strLit "q", [], []⟩).1⟩

/-! ## Claim C9 -/

/-- The newline character never survives sanitization: it is not
printable. -/
lemma no_nl_sanitize (u : PyStr) : '\n' ∉ sanitize_response u := by
  intro hx
  exact absurd (List.mem_filter.1 hx).2 (by decide)

/-- Blank-line removal introduces no newline into a newline-free text. -/
lemma no_nl_dropBlankLines {t : PyStr} (h : '\n' ∉ t) :
    '\n' ∉ dropBlankLines t := by
  rw [dropBlankLines_no_nl t h]
  split
  · simp
  · exact h

/-- Bullet replacement introduces no newline. -/
lemma no_nl_replaceBullet {t : PyStr} (h : '\n' ∉ t) :
    '\n' ∉ replaceBullet t := by
  intro hx
  rw [replaceBullet, List.mem_map] at hx
  obtain ⟨d, hd, hfd⟩ := hx
  by_cases hb : (d == '•') = true
  · rw [if_pos hb] at hfd
    exact absurd hfd (by decide)
  · rw [if_neg hb] at hfd
    exact h (hfd ▸ hd)

/-- C9 counterexample: the blank-line-removal step of `maincode.py` is not
vacuous.  On the generation output `"\x01 \x01"` the sanitized text is the
single all-blank line `" "`, which the blank-line removal deletes — so the
drafted answer differs from what the chain without that step produces. -/
theorem C9_counterexample :
    (answer_drafting_agent_main ⟨strLit "q", [strLit "d"], []⟩
        (.ok (.str (strLit "\x01 \x01")))).answer_draft ≠
      replaceBullet (sanitize_response (pyStrip (strLit "\x01 \x01"))) := by
  decide

/-- C9 amended: in the `maincode.py` variant the drafted answer indeed never
contains a newline character, since `sanitize_response` removes every
non-printable character including newlines; but the subsequent
blank-line-removal step is not vacuous — on a newline-free text it is the
identity only when the text has non-blank content, and collapses an
all-whitespace text to the empty string. -/
theorem C9_no_newline_in_main_draft :
    (∀ st go, '\n' ∉ (answer_drafting_agent_main st go).answer_draft) ∧
    (∀ t : PyStr, '\n' ∉ t →
      dropBlankLines t = if (pyStrip t).isEmpty then [] else t) := by
  refine ⟨?_, dropBlankLines_no_nl⟩
  intro st go
  cases go with
  | exc =>
    show '\n' ∉ strLit "Error fetching response."
    decide
  | ok r =>
    apply no_nl_replaceBullet
    apply no_nl_dropBlankLines
    split
    · decide
    · cases r with
      | str s => exact no_nl_sanitize _
      | dict g =>
        show '\n' ∉ strLit "Error: No answer generated."
        decide
      | other =>
        show '\n' ∉ strLit "Error: No answer generated."
        decide

/-- Witness for the amended C9: no newline in a concrete drafted answer, and
the blank-line removal collapses the concrete all-blank text `" "`. -/
theorem C9_no_newline_in_main_draft_witness :
    '\n' ∉ (answer_drafting_agent_main ⟨strLit "q", [], []⟩
      (.ok (.str (strLit "line1\nline2")))).answer_draft ∧
    dropBlankLines (strLit " ") =
      if (pyStrip (strLit " ")).isEmpty then [] else strLit " " :=
  ⟨C9_no_newline_in_main_draft.1 _ _,
   C9_no_newline_in_main_draft.2 (strLit " ") (by decide)⟩

/-! ## Claim C10 -/

/-- C10 counterexample: in the `maincode.py` variant the drafting step can
return an empty `answer_draft` — a generation output whose printable residue
is all whitespace (here `"\x01 \x01"`, sanitized to `" "`) passes the
corruption check non-empty and is then deleted entirely by the blank-line
removal. -/
theorem C10_counterexample :
    (answer_drafting_agent_main ⟨strLit "q", [strLit "r"], []⟩
        (.ok (.str (strLit "\x01 \x01")))).answer_draft = [] := by
  decide

/-- C10 amended: the drafting step always returns a non-empty
`answer_draft` in the `newmain.py` and `accuracy.py` variants, for every
collaborator outcome; in the `maincode.py` variant an all-blank sanitized
answer yields an empty draft, and the runner's empty-answer fallback branch
is then reachable end to end. -/
theorem C10_drafting_nonempty_per_variant :
    (∀ st go, (answer_drafting_agent_newmain st go).answer_draft ≠ []) ∧
    (∀ st go, (answer_drafting_agent_accuracy st go).answer_draft ≠ []) ∧
    run_research_system_main (strLit "q") (.ok (some []))
      (.ok (.str (strLit "\x01 \x01"))) true =
      strLit "Error: No answer generated." := by
  exact ⟨drafting_newmain_ad_ne, drafting_accuracy_ad_ne, by decide⟩
